import Mathlib

/-!
Verification of the WTL Analysis persistence and automated-report engine
(`database_manager.py`).  The MySQL-backed store is embedded as explicit
state: a committed database plus a per-connection transaction buffer, with
`commit` and `rollback` matching the calls in the source.  Each SQL query of
`generate_automated_report` is translated to a pure list computation over the
stored rows, with `AVG`, `SUM`, `COUNT(DISTINCT ...)`, `GROUP BY`,
`ORDER BY ... DESC LIMIT 10` and `BETWEEN` given their MySQL semantics.
Numeric DECIMAL values are modelled as rationals, DATE values as
year/month/day triples compared lexicographically.
-/

namespace WTL

/-- A calendar date as stored in the `DATE` columns (`report_date`). -/
structure Date where
  year : Nat
  month : Nat
  day : Nat
deriving DecidableEq

/-- MySQL `DATE` comparison: lexicographic on (year, month, day). -/
def Date.le (a b : Date) : Bool :=
  if a.year ≠ b.year then decide (a.year < b.year)
  else if a.month ≠ b.month then decide (a.month < b.month)
  else decide (a.day ≤ b.day)

/-- A stored row of the `financial_summary` table (schema lines 64-84 of
`database_manager.py`).  `insert_financial_summary` coerces every numeric
column with `float(...)`, so each stored value is a number, never SQL NULL. -/
structure FinRow where
  report_date : Date
  project_code : String
  project_name : String
  project_type : String
  status : String
  contract_price : ℚ
  purchase_cost : ℚ
  labor_cost : ℚ
  total_cost : ℚ
  profit : ℚ
  profit_margin : ℚ
  total_hours : ℚ
  efficiency_score : ℚ
deriving DecidableEq

/-- A stored row of the `department_summary` table (schema lines 87-101). -/
structure DeptRow where
  report_date : Date
  department_name : String
  total_hours : ℚ
  total_labor_cost : ℚ
  num_projects : ℤ
  num_tasks : ℤ
  avg_hourly_rate : ℚ
deriving DecidableEq

/-- One row of the DataFrame passed to `insert_financial_summary`.  Fields
read with `row.get(key, default)` in the source are optional here; fields
read with `row[key]` and coerced by `float(...)` must be present and numeric. -/
structure FinInputRow where
  ProjectCode : String
  ProjectName : String
  ProjectType : String
  Status : Option String
  ContractPrice : ℚ
  PurchaseCost : ℚ
  LaborCost : Option ℚ
  TotalCost : ℚ
  Profit : ℚ
  ProfitMargin : ℚ
  TotalHours : Option ℚ
  EfficiencyScore : Option ℚ
deriving DecidableEq

/-- One row of the DataFrame passed to `insert_department_summary`; the
DataFrame index carries the department name. -/
structure DeptInputRow where
  dept : String
  TotalHours : ℚ
  TotalLaborCost : ℚ
  NumProjects : ℤ
  NumTasks : ℤ
  HourlyRate : ℚ
deriving DecidableEq

/-- The tuple built for one row in `insert_financial_summary` (lines
139-155): `row.get('Status', 'Unknown')`, `row.get('LaborCost', 0)`,
`row.get('TotalHours', 0)`, `row.get('EfficiencyScore', 0)`. -/
def toFinRow (report_date : Date) (r : FinInputRow) : FinRow :=
  { report_date := report_date
    project_code := r.ProjectCode
    project_name := r.ProjectName
    project_type := r.ProjectType
    status := r.Status.getD "Unknown"
    contract_price := r.ContractPrice
    purchase_cost := r.PurchaseCost
    labor_cost := r.LaborCost.getD 0
    total_cost := r.TotalCost
    profit := r.Profit
    profit_margin := r.ProfitMargin
    total_hours := r.TotalHours.getD 0
    efficiency_score := r.EfficiencyScore.getD 0 }

/-- The tuple built for one row in `insert_department_summary` (lines
180-190). -/
def toDeptRow (report_date : Date) (r : DeptInputRow) : DeptRow :=
  { report_date := report_date
    department_name := r.dept
    total_hours := r.TotalHours
    total_labor_cost := r.TotalLaborCost
    num_projects := r.NumProjects
    num_tasks := r.NumTasks
    avg_hourly_rate := r.HourlyRate }

/-- The committed contents of the two summary tables. -/
structure DB where
  financial : List FinRow
  department : List DeptRow
deriving DecidableEq

/-- A MySQL session: committed state plus the rows staged by the current
transaction (`executemany` stages rows; `connection.commit()` publishes
them; `connection.rollback()` discards them). -/
structure Session where
  committed : DB
  pendingFinancial : List FinRow
  pendingDepartment : List DeptRow
deriving DecidableEq

/-- `self.connection.commit()`: publish all staged rows. -/
def Session.commit (s : Session) : Session :=
  { committed :=
      { financial := s.committed.financial ++ s.pendingFinancial
        department := s.committed.department ++ s.pendingDepartment }
    pendingFinancial := []
    pendingDepartment := [] }

/-- `self.connection.rollback()`: discard all staged rows. -/
def Session.rollback (s : Session) : Session :=
  { committed := s.committed, pendingFinancial := [], pendingDepartment := [] }

/-- `cursor.executemany` on `financial_summary`: stage the rows one by one.
`failAt = some k` models a `mysql.connector.Error` raised before staging row
`k`; `none` is the success path. -/
def execManyFinancial (s : Session) (rows : List FinRow) (failAt : Option Nat) :
    Except Session Session :=
  match failAt with
  | some k => .error { s with pendingFinancial := s.pendingFinancial ++ rows.take k }
  | none => .ok { s with pendingFinancial := s.pendingFinancial ++ rows }

/-- `cursor.executemany` on `department_summary`, with the same failure
model. -/
def execManyDepartment (s : Session) (rows : List DeptRow) (failAt : Option Nat) :
    Except Session Session :=
  match failAt with
  | some k => .error { s with pendingDepartment := s.pendingDepartment ++ rows.take k }
  | none => .ok { s with pendingDepartment := s.pendingDepartment ++ rows }

/-- `DatabaseManager.insert_financial_summary` (lines 124-165): map each
DataFrame row to a tuple, `executemany`, then `commit`; on `Error`, `rollback`
and re-raise.  The error value carries the session left behind by the raise. -/
def insert_financial_summary (s : Session) (summary_df : List FinInputRow)
    (report_date : Date) (failAt : Option Nat) : Except Session Session :=
  match execManyFinancial s (summary_df.map (toFinRow report_date)) failAt with
  | .error s1 => .error s1.rollback
  | .ok s1 => .ok s1.commit

/-- `DatabaseManager.insert_department_summary` (lines 167-200), same shape. -/
def insert_department_summary (s : Session) (dept_summary_df : List DeptInputRow)
    (report_date : Date) (failAt : Option Nat) : Except Session Session :=
  match execManyDepartment s (dept_summary_df.map (toDeptRow report_date)) failAt with
  | .error s1 => .error s1.rollback
  | .ok s1 => .ok s1.commit

/-- The write path for one report date as the callers run it (`main.py`
lines 137-144 and `database_manager.main`, lines 444-445): the financial
insert followed by the department insert, each committing on its own. -/
def storeSummaries (s : Session) (report_date : Date) (finRows : List FinInputRow)
    (deptRows : List DeptInputRow) (finFail deptFail : Option Nat) :
    Except Session Session :=
  match insert_financial_summary s finRows report_date finFail with
  | .error s1 => .error s1
  | .ok s1 => insert_department_summary s1 deptRows report_date deptFail

/-- `report_date BETWEEN %s AND %s`: MySQL `BETWEEN` is inclusive at both
ends. -/
def inRange (d1 d2 d : Date) : Bool :=
  Date.le d1 d && Date.le d d2

/-- The `financial_summary` rows matched by the `WHERE report_date BETWEEN`
clause shared by every query of `generate_automated_report`. -/
def finInRange (db : DB) (d1 d2 : Date) : List FinRow :=
  db.financial.filter (fun r => inRange d1 d2 r.report_date)

/-- The `department_summary` rows matched by the date-range clause. -/
def deptInRange (db : DB) (d1 d2 : Date) : List DeptRow :=
  db.department.filter (fun r => inRange d1 d2 r.report_date)

/-- MySQL `AVG` over a column with no NULLs: NULL on the empty set — which
the report code turns into 0 via `if result[...] else 0` — and the arithmetic
mean otherwise. -/
def sqlAvg (l : List ℚ) : ℚ :=
  if l.length = 0 then 0 else l.sum / l.length

/-- The `report['summary']` block (lines 239-263). -/
structure Summary where
  total_projects : Nat
  total_revenue : ℚ
  total_cost : ℚ
  total_profit : ℚ
  avg_profit_margin : ℚ
  total_hours : ℚ
deriving DecidableEq

/-- The overall summary query (lines 240-263): `COUNT(DISTINCT project_code)`,
column sums, `AVG(profit_margin)`; each NULL produced by the empty set becomes
0 in the `if result[...] else 0` guards. -/
def mkSummary (rows : List FinRow) : Summary :=
  { total_projects := (rows.map (·.project_code)).dedup.length
    total_revenue := (rows.map (·.contract_price)).sum
    total_cost := (rows.map (·.total_cost)).sum
    total_profit := (rows.map (·.profit)).sum
    avg_profit_margin := sqlAvg (rows.map (·.profit_margin))
    total_hours := (rows.map (·.total_hours)).sum }

/-- One entry of `report['project_types']` (lines 266-286). -/
structure TypeEntry where
  project_type : String
  count : Nat
  total_profit : ℚ
  avg_margin : ℚ
deriving DecidableEq

/-- One `GROUP BY project_type` group of the type query. -/
def typeEntry (rows : List FinRow) (t : String) : TypeEntry :=
  { project_type := t
    count := (rows.filter (fun r => r.project_type == t)).length
    total_profit := ((rows.filter (fun r => r.project_type == t)).map (·.profit)).sum
    avg_margin := sqlAvg ((rows.filter (fun r => r.project_type == t)).map (·.profit_margin)) }

/-- The project-type breakdown: one entry per distinct `project_type` among
the rows in range. -/
def mkTypeBreakdown (rows : List FinRow) : List TypeEntry :=
  ((rows.map (·.project_type)).dedup).map (typeEntry rows)

/-- One entry of `report['project_status']` (lines 288-309). -/
structure StatusEntry where
  status : String
  count : Nat
  avg_margin : ℚ
deriving DecidableEq

/-- The rows admitted by the status query `WHERE` clause:
`project_type = 'GS' AND status != 'Unknown'` (lines 295-297). -/
def gsStatusRows (rows : List FinRow) : List FinRow :=
  rows.filter (fun r => r.project_type == "GS" && r.status != "Unknown")

/-- One `GROUP BY status` group of the status query. -/
def statusEntry (rows : List FinRow) (st : String) : StatusEntry :=
  { status := st
    count := ((gsStatusRows rows).filter (fun r => r.status == st)).length
    avg_margin :=
      sqlAvg (((gsStatusRows rows).filter (fun r => r.status == st)).map (·.profit_margin)) }

/-- The status breakdown: one entry per distinct status among the admitted
rows. -/
def mkStatusBreakdown (rows : List FinRow) : List StatusEntry :=
  (((gsStatusRows rows).map (·.status)).dedup).map (statusEntry rows)

/-- One entry of `report['top_departments']` (lines 311-335). -/
structure DeptEntry where
  department : String
  total_hours : ℚ
  total_cost : ℚ
  avg_projects : ℚ
deriving DecidableEq

/-- One `GROUP BY department_name` group of the department query:
`SUM(total_hours)`, `SUM(total_labor_cost)`, `AVG(num_projects)`. -/
def deptEntry (rows : List DeptRow) (name : String) : DeptEntry :=
  { department := name
    total_hours := ((rows.filter (fun r => r.department_name == name)).map (·.total_hours)).sum
    total_cost :=
      ((rows.filter (fun r => r.department_name == name)).map (·.total_labor_cost)).sum
    avg_projects :=
      sqlAvg ((rows.filter (fun r => r.department_name == name)).map
        (fun r => (r.num_projects : ℚ))) }

/-- `ORDER BY total_hours DESC`: the left entry has at least the hours of the
right one. -/
def deptGe (a b : DeptEntry) : Prop := b.total_hours ≤ a.total_hours

instance : DecidableRel deptGe :=
  fun a b => inferInstanceAs (Decidable (b.total_hours ≤ a.total_hours))

instance : IsTotal DeptEntry deptGe := ⟨fun a b => le_total b.total_hours a.total_hours⟩

instance : IsTrans DeptEntry deptGe := ⟨fun _ _ _ h1 h2 => le_trans h2 h1⟩

/-- The department query: group, then `ORDER BY total_hours DESC LIMIT 10`,
realised by a stable sort on descending summed hours and `take 10`. -/
def mkTopDepartments (rows : List DeptRow) : List DeptEntry :=
  (List.insertionSort deptGe
    (((rows.map (·.department_name)).dedup).map (deptEntry rows))).take 10

/-- One entry of `report['alerts']`.  `msg_count` and `msg_amount` are the
numbers interpolated into the message f-string (count, and for the loss alert
`abs(total_loss)`). -/
structure Alert where
  alert_type : String
  severity : String
  msg_count : Nat
  msg_amount : Option ℚ
deriving DecidableEq

/-- Rows matched by the loss query `WHERE ... AND profit < 0` (lines
339-343). -/
def lossRows (rows : List FinRow) : List FinRow :=
  rows.filter (fun r => decide (r.profit < 0))

/-- Rows matched by the low-efficiency query
`WHERE ... AND efficiency_score < 100 AND total_hours > 0` (lines 356-362). -/
def lowEffRows (rows : List FinRow) : List FinRow :=
  rows.filter (fun r => decide (r.efficiency_score < 100) && decide (0 < r.total_hours))

/-- The loss alert appended when the loss count is positive (lines 348-353). -/
def lossAlertOf (rows : List FinRow) : Alert :=
  { alert_type := "loss_making_projects"
    severity := "high"
    msg_count := (lossRows rows).length
    msg_amount := some |((lossRows rows).map (·.profit)).sum| }

/-- The low-efficiency alert appended when its count is positive (lines
367-372). -/
def effAlertOf (rows : List FinRow) : Alert :=
  { alert_type := "low_efficiency"
    severity := "medium"
    msg_count := (lowEffRows rows).length
    msg_amount := none }

/-- The alert accumulation of lines 337-372: rule 1 evaluated and appended
first, rule 2 second, each guarded only by its own count. -/
def mkAlerts (rows : List FinRow) : List Alert :=
  (if 0 < (lossRows rows).length then [lossAlertOf rows] else []) ++
    (if 0 < (lowEffRows rows).length then [effAlertOf rows] else [])

/-- The structured report value assembled by `generate_automated_report`
(the period string and timestamp, pure presentation, are omitted). -/
structure Report where
  summary : Summary
  project_types : List TypeEntry
  project_status : List StatusEntry
  top_departments : List DeptEntry
  alerts : List Alert
deriving DecidableEq

/-- `datetime.now().strftime('%Y-%m-01')`: first day of the current month
(line 227). -/
def firstOfMonth (today : Date) : Date :=
  { year := today.year, month := today.month, day := 1 }

/-- `DatabaseManager.generate_automated_report` (lines 223-378) on the
success path: resolve the default dates, then run the six aggregate queries
over the rows in range. -/
def generate_automated_report (db : DB) (today : Date)
    (start_date end_date : Option Date) : Report :=
  let d1 := start_date.getD (firstOfMonth today)
  let d2 := end_date.getD today
  { summary := mkSummary (finInRange db d1 d2)
    project_types := mkTypeBreakdown (finInRange db d1 d2)
    project_status := mkStatusBreakdown (finInRange db d1 d2)
    top_departments := mkTopDepartments (deptInRange db d1 d2)
    alerts := mkAlerts (finInRange db d1 d2) }

/-- The six read queries issued by `generate_automated_report`, in issue
order. -/
inductive QueryId
  | summaryQ
  | typeQ
  | statusQ
  | deptQ
  | lossQ
  | effQ
deriving DecidableEq

/-- Issue one read query against the storage engine; `fails` says which
queries raise `mysql.connector.Error`. -/
def runQuery (fails : QueryId → Bool) (q : QueryId) (a : α) : Except QueryId α :=
  if fails q then .error q else .ok a

/-- `generate_automated_report` with fallible reads: the whole body sits in
one `try` block whose handler re-raises (lines 225, 376-378), so the first
failing query aborts the call and no report value is produced. -/
def generateReportExc (db : DB) (today : Date) (start_date end_date : Option Date)
    (fails : QueryId → Bool) : Except QueryId Report :=
  let d1 := start_date.getD (firstOfMonth today)
  let d2 := end_date.getD today
  match runQuery fails .summaryQ (mkSummary (finInRange db d1 d2)) with
  | .error q => .error q
  | .ok s =>
    match runQuery fails .typeQ (mkTypeBreakdown (finInRange db d1 d2)) with
    | .error q => .error q
    | .ok t =>
      match runQuery fails .statusQ (mkStatusBreakdown (finInRange db d1 d2)) with
      | .error q => .error q
      | .ok st =>
        match runQuery fails .deptQ (mkTopDepartments (deptInRange db d1 d2)) with
        | .error q => .error q
        | .ok dp =>
          match runQuery fails .lossQ (lossRows (finInRange db d1 d2)) with
          | .error q => .error q
          | .ok _ =>
            match runQuery fails .effQ (lowEffRows (finInRange db d1 d2)) with
            | .error q => .error q
            | .ok _ =>
              .ok { summary := s, project_types := t, project_status := st,
                    top_departments := dp, alerts := mkAlerts (finInRange db d1 d2) }

/-- The database restricted to the rows whose `report_date` the `BETWEEN`
clause admits. -/
def restrictDB (db : DB) (d1 d2 : Date) : DB :=
  { financial := db.financial.filter (fun r => inRange d1 d2 r.report_date)
    department := db.department.filter (fun r => inRange d1 d2 r.report_date) }

/-- The database with every row the status query rejects removed: only
`GS` rows whose status differs from `Unknown` remain. -/
def gsOnlyDB (db : DB) : DB :=
  { financial := db.financial.filter (fun r => r.project_type == "GS" && r.status != "Unknown")
    department := db.department }

/-- The report produced from an empty row set: all-zero summary, empty
breakdowns, no alerts. -/
def emptyReport : Report :=
  { summary := { total_projects := 0, total_revenue := 0, total_cost := 0,
                 total_profit := 0, avg_profit_margin := 0, total_hours := 0 }
    project_types := []
    project_status := []
    top_departments := []
    alerts := [] }

/-! ### Concrete fixtures used by the theorems below -/

/-- The report date used by the concrete fixtures. -/
def dJul1 : Date := { year := 2024, month := 7, day := 1 }

/-- A fresh session over an empty store. -/
def emptySession : Session :=
  { committed := { financial := [], department := [] }
    pendingFinancial := []
    pendingDepartment := [] }

/-- A well-formed financial input row for project `P1`. -/
def sampleFin1 : FinInputRow :=
  { ProjectCode := "P1", ProjectName := "Alpha", ProjectType := "GS"
    Status := some "Success", ContractPrice := 1000, PurchaseCost := 400
    LaborCost := some 100, TotalCost := 500, Profit := 500, ProfitMargin := 50
    TotalHours := some 10, EfficiencyScore := some 50 }

/-- A well-formed department input row. -/
def sampleDept1 : DeptInputRow :=
  { dept := "Eng", TotalHours := 100, TotalLaborCost := 5000
    NumProjects := 3, NumTasks := 20, HourlyRate := 50 }

/-- Running the same one-row batch through `insert_financial_summary` twice
for the same report date, both calls on the success path. -/
def reRunSameDate : Except Session Session :=
  match insert_financial_summary emptySession [sampleFin1] dJul1 none with
  | .error s1 => .error s1
  | .ok s1 => insert_financial_summary s1 [sampleFin1] dJul1 none

/-- The session produced by one successful financial insert of `sampleFin1`
into the empty store. -/
def okSession : Session :=
  { committed := { financial := [toFinRow dJul1 sampleFin1], department := [] }
    pendingFinancial := []
    pendingDepartment := [] }

/-- An input row with `ContractPrice = 0`; the pipeline hands the insert a
numeric `ProfitMargin` (the `float(...)` coercion on line 152 requires one),
here the zero a margin-undefined row degenerates to. -/
def zeroPriceRow : FinInputRow :=
  { ProjectCode := "P0", ProjectName := "ZeroPrice", ProjectType := "GS"
    Status := some "Success", ContractPrice := 0, PurchaseCost := 10
    LaborCost := some 0, TotalCost := 10, Profit := -10, ProfitMargin := 0
    TotalHours := some 1, EfficiencyScore := some (-10) }

/-- A companion row with margin 30. -/
def marginRow30 : FinInputRow :=
  { ProjectCode := "P30", ProjectName := "Beta", ProjectType := "GS"
    Status := some "Success", ContractPrice := 100, PurchaseCost := 70
    LaborCost := some 0, TotalCost := 70, Profit := 30, ProfitMargin := 30
    TotalHours := some 1, EfficiencyScore := some 30 }

/-- Store containing only the margin-30 row. -/
def dbMargin30 : DB :=
  { financial := [toFinRow dJul1 marginRow30], department := [] }

/-- Store containing the margin-30 row plus the zero-contract-price row. -/
def dbMargin30AndZero : DB :=
  { financial := [toFinRow dJul1 marginRow30, toFinRow dJul1 zeroPriceRow],
    department := [] }

/-- A store whose only rows sit at 2024-06-30, outside July. -/
def dbJuneOnly : DB :=
  { financial := [toFinRow { year := 2024, month := 6, day := 30 } sampleFin1]
    department := [toDeptRow { year := 2024, month := 6, day := 30 } sampleDept1] }

/-- The financial rows every query of one `generate_automated_report` call
ranges over, after default-date resolution. -/
def rowsInReport (db : DB) (today : Date) (sd ed : Option Date) : List FinRow :=
  finInRange db (sd.getD (firstOfMonth today)) (ed.getD today)

/-- A store holding financial rows at 2024-07-01 and 2024-06-30. -/
def dbBoundary : DB :=
  { financial := [toFinRow dJul1 sampleFin1,
      toFinRow { year := 2024, month := 6, day := 30 } marginRow30]
    department := [toDeptRow dJul1 sampleDept1] }

/-- Fixture row builder: a stored financial row at 2024-07-01. -/
def finAt (code ptype st : String) (price profit margin hours eff : ℚ) : FinRow :=
  { report_date := dJul1, project_code := code, project_name := code
    project_type := ptype, status := st, contract_price := price
    purchase_cost := 0, labor_cost := 0, total_cost := 0, profit := profit
    profit_margin := margin, total_hours := hours, efficiency_score := eff }

/-- The alert-determinism fixture of the specification: three loss rows with
total loss 500 (kept out of the efficiency rule by zero hours) and two
low-efficiency rows. -/
def dbAlerts : DB :=
  { financial :=
      [ finAt "L1" "GS" "Success" 100 (-200) 10 0 0,
        finAt "L2" "GS" "Success" 100 (-150) 10 0 0,
        finAt "L3" "GS" "Success" 100 (-150) 10 0 0,
        finAt "E1" "GS" "Success" 100 10 10 10 50,
        finAt "E2" "GS" "Success" 100 10 10 10 50 ]
    department := [] }

/-- A failure oracle under which only the status query raises. -/
def failsStatusOnly : QueryId → Bool :=
  fun q => match q with
  | .statusQ => true
  | _ => false

/-- A financial input row whose DataFrame has no `Status` column. -/
def noStatusRow : FinInputRow :=
  { ProjectCode := "PN", ProjectName := "NoStatus", ProjectType := "GS"
    Status := none, ContractPrice := 100, PurchaseCost := 40
    LaborCost := some 10, TotalCost := 50, Profit := 50, ProfitMargin := 50
    TotalHours := some 5, EfficiencyScore := some 10 }

/-- The status-breakdown fixture of the specification: five `GS` rows (three
`Success`, two `Unknown`) and four `ISS` rows. -/
def dbStatus : DB :=
  { financial :=
      [ finAt "G1" "GS" "Success" 100 10 10 1 10,
        finAt "G2" "GS" "Success" 100 10 10 1 10,
        finAt "G3" "GS" "Success" 100 10 10 1 10,
        finAt "G4" "GS" "Unknown" 100 10 10 1 10,
        finAt "G5" "GS" "Unknown" 100 10 10 1 10,
        finAt "I1" "ISS" "Unknown" 100 10 10 1 10,
        finAt "I2" "ISS" "Unknown" 100 10 10 1 10,
        finAt "I3" "ISS" "Unknown" 100 10 10 1 10,
        finAt "I4" "ISS" "Unknown" 100 10 10 1 10 ]
    department := [] }

/-- The department rows every query of one `generate_automated_report` call
ranges over, after default-date resolution. -/
def deptRowsInReport (db : DB) (today : Date) (sd ed : Option Date) : List DeptRow :=
  deptInRange db (sd.getD (firstOfMonth today)) (ed.getD today)

/-- The grouped department aggregates before `ORDER BY ... LIMIT`. -/
def deptAggs (rows : List DeptRow) : List DeptEntry :=
  ((rows.map (·.department_name)).dedup).map (deptEntry rows)

/-- Fixture row builder: a stored department row at 2024-07-01 with one
project and labor cost equal to its hours. -/
def deptAt (name : String) (h : ℚ) : DeptRow :=
  { report_date := dJul1, department_name := name, total_hours := h
    total_labor_cost := h, num_projects := 1, num_tasks := 1, avg_hourly_rate := 1 }

/-- Eleven departments with strictly decreasing hours; `D11` ranks last. -/
def dbTop : DB :=
  { financial := []
    department :=
      [ deptAt "D01" 110, deptAt "D02" 100, deptAt "D03" 90, deptAt "D04" 80,
        deptAt "D05" 70, deptAt "D06" 60, deptAt "D07" 50, deptAt "D08" 40,
        deptAt "D09" 30, deptAt "D10" 20, deptAt "D11" 10 ] }

/-- A department aggregate entry over one single-row group with `h` hours. -/
def mkDE (name : String) (h : ℚ) : DeptEntry :=
  { department := name, total_hours := h, total_cost := h, avg_projects := 1 }

/-- C1.  Storing the same batch twice for the same `report_date` is accepted
(no rejection: the result is `ok`) and leaves TWO rows for the key
`(2024-07-01, P1)` in `financial_summary`: the insert appends blindly, so the
claimed invariant — explicit rejection or exactly one logical row per key —
fails on the code.  This confirms the latent-bug reading recorded in the
specification rather than the claimed invariant. -/
theorem insert_twice_duplicates_key_rows :
    reRunSameDate.map
        (fun s => (s.committed.financial.filter
          (fun r => r.report_date == dJul1 && r.project_code == "P1")).length) =
      Except.ok 2 := by
  rfl

/-- C2 counterexample.  A single failure during the department write (the
first `executemany` row raises) after the financial write already committed
leaves the store with the financial rows of the date visible and no
department rows: the two-table batch is not atomic. -/
theorem storeSummaries_not_cross_table_atomic :
    (storeSummaries emptySession dJul1 [sampleFin1] [sampleDept1] none (some 0)).mapError
        (fun s => s.committed) =
      Except.error { financial := [toFinRow dJul1 sampleFin1], department := [] } := by
  rfl

/-- C2 amended.  Each insert call is atomic for its own table: on failure the
rollback leaves the committed store unchanged, and on success exactly the
mapped batch is appended to that table with the other table untouched.  (The
cross-table batch is not atomic; see the counterexample.) -/
theorem insert_calls_atomic_per_table (s s1 : Session)
    (hf : s.pendingFinancial = []) (hd : s.pendingDepartment = [])
    (finRows : List FinInputRow) (deptRows : List DeptInputRow)
    (d : Date) (failAt : Option Nat) :
    (insert_financial_summary s finRows d failAt = Except.error s1 →
      s1.committed = s.committed)
    ∧ (insert_financial_summary s finRows d failAt = Except.ok s1 →
      s1.committed.financial = s.committed.financial ++ finRows.map (toFinRow d)
        ∧ s1.committed.department = s.committed.department)
    ∧ (insert_department_summary s deptRows d failAt = Except.error s1 →
      s1.committed = s.committed)
    ∧ (insert_department_summary s deptRows d failAt = Except.ok s1 →
      s1.committed.department = s.committed.department ++ deptRows.map (toDeptRow d)
        ∧ s1.committed.financial = s.committed.financial) := by
  cases failAt <;>
    simp only [insert_financial_summary, insert_department_summary,
      execManyFinancial, execManyDepartment, Session.commit, Session.rollback] <;>
    refine ⟨fun h => ?_, fun h => ?_, fun h => ?_, fun h => ?_⟩ <;>
    first
      | (injection h with h; subst h; simp [hf, hd])
      | injection h

/-- Witness for the amended C2 theorem at a concrete input. -/
theorem insert_calls_atomic_per_table_witness :
    okSession.committed.financial =
        emptySession.committed.financial ++ [sampleFin1].map (toFinRow dJul1)
      ∧ okSession.committed.department = emptySession.committed.department :=
  (insert_calls_atomic_per_table emptySession okSession rfl rfl
    [sampleFin1] [sampleDept1] dJul1 none).2.1 rfl

/-- C3.  The insert path stores a numeric `profit_margin` for the
zero-contract-price row (here 0, never SQL NULL: line 152 coerces with
`float`), and `AVG(profit_margin)` counts it: adding the zero-price row to a
batch whose only other row has margin 30 moves the reported mean from 30 to
15, so null-margin exclusion fails on the code. -/
theorem zero_price_margin_included_in_avg :
    (toFinRow dJul1 zeroPriceRow).contract_price = 0
    ∧ (toFinRow dJul1 zeroPriceRow).profit_margin = 0
    ∧ (generate_automated_report dbMargin30 dJul1 (some dJul1)
        (some dJul1)).summary.avg_profit_margin = 30
    ∧ (generate_automated_report dbMargin30AndZero dJul1 (some dJul1)
        (some dJul1)).summary.avg_profit_margin = 15 := by
  refine ⟨rfl, rfl, ?_, ?_⟩ <;>
    norm_num [generate_automated_report, mkSummary, sqlAvg, finInRange, inRange,
      Date.le, dJul1, dbMargin30, dbMargin30AndZero, toFinRow, marginRow30,
      zeroPriceRow, List.filter]

/-- C9.  A date range matching no stored rows yields the all-zero report:
zero summary fields, empty breakdowns, no top departments, no alerts — the
call succeeds rather than failing. -/
theorem empty_range_zero_report (db : DB) (today : Date)
    (start_date end_date : Option Date)
    (hF : finInRange db (start_date.getD (firstOfMonth today)) (end_date.getD today) = [])
    (hG : deptInRange db (start_date.getD (firstOfMonth today)) (end_date.getD today) = []) :
    generate_automated_report db today start_date end_date = emptyReport := by
  simp only [generate_automated_report]
  rw [hF, hG]
  rfl

/-- Witness for C9: a nonempty store queried over a range containing none of
its rows returns the zero report. -/
theorem empty_range_zero_report_witness :
    finInRange dbJuneOnly ((some dJul1).getD (firstOfMonth dJul1))
        ((some { year := 2024, month := 7, day := 31 }).getD dJul1) = []
    ∧ deptInRange dbJuneOnly ((some dJul1).getD (firstOfMonth dJul1))
        ((some { year := 2024, month := 7, day := 31 }).getD dJul1) = []
    ∧ generate_automated_report dbJuneOnly dJul1 (some dJul1)
        (some { year := 2024, month := 7, day := 31 }) = emptyReport :=
  ⟨rfl, rfl,
    empty_range_zero_report dbJuneOnly dJul1 (some dJul1)
      (some { year := 2024, month := 7, day := 31 }) rfl rfl⟩

/-- Restricting the store to the admitted date range changes no
`financial_summary` query input. -/
theorem finInRange_restrict (db : DB) (d1 d2 : Date) :
    finInRange (restrictDB db d1 d2) d1 d2 = finInRange db d1 d2 := by
  simp [finInRange, restrictDB, List.filter_filter]

/-- Restricting the store to the admitted date range changes no
`department_summary` query input. -/
theorem deptInRange_restrict (db : DB) (d1 d2 : Date) :
    deptInRange (restrictDB db d1 d2) d1 d2 = deptInRange db d1 d2 := by
  simp [deptInRange, restrictDB, List.filter_filter]

/-- C6.  Every aggregate of the report is computed over exactly the rows
whose `report_date` lies in the inclusive range: the report is unchanged by
deleting every out-of-range row, a stored row survives the restriction
exactly when `d1 ≤ report_date ≤ d2` (so both boundaries are included), and
omitted dates default to the first day of the current month and today. -/
theorem report_range_inclusive_and_defaults (db : DB) (today d1 d2 : Date) :
    generate_automated_report db today (some d1) (some d2)
      = generate_automated_report (restrictDB db d1 d2) today (some d1) (some d2)
    ∧ (∀ r : FinRow, r ∈ db.financial →
        (r ∈ (restrictDB db d1 d2).financial ↔
          (Date.le d1 r.report_date = true ∧ Date.le r.report_date d2 = true)))
    ∧ (∀ r : DeptRow, r ∈ db.department →
        (r ∈ (restrictDB db d1 d2).department ↔
          (Date.le d1 r.report_date = true ∧ Date.le r.report_date d2 = true)))
    ∧ generate_automated_report db today none none
      = generate_automated_report db today (some (firstOfMonth today)) (some today) := by
  refine ⟨?_, ?_, ?_, rfl⟩
  · simp only [generate_automated_report, Option.getD_some]
    rw [finInRange_restrict, deptInRange_restrict]
  · intro r hr
    simp [restrictDB, List.mem_filter, inRange, hr]
  · intro r hr
    simp [restrictDB, List.mem_filter, inRange, hr]

/-- Witness for C6 at a concrete store and range: restriction to July leaves
the report unchanged, and the row sitting exactly on the lower boundary is
admitted. -/
theorem report_range_inclusive_and_defaults_witness :
    (generate_automated_report dbBoundary dJul1 (some dJul1)
        (some { year := 2024, month := 7, day := 31 })
      = generate_automated_report
          (restrictDB dbBoundary dJul1 { year := 2024, month := 7, day := 31 })
          dJul1 (some dJul1) (some { year := 2024, month := 7, day := 31 }))
    ∧ (toFinRow dJul1 sampleFin1 ∈
        (restrictDB dbBoundary dJul1 { year := 2024, month := 7, day := 31 }).financial ↔
        (Date.le dJul1 (toFinRow dJul1 sampleFin1).report_date = true
          ∧ Date.le (toFinRow dJul1 sampleFin1).report_date
              { year := 2024, month := 7, day := 31 } = true)) :=
  ⟨(report_range_inclusive_and_defaults dbBoundary dJul1 dJul1
      { year := 2024, month := 7, day := 31 }).1,
    (report_range_inclusive_and_defaults dbBoundary dJul1 dJul1
      { year := 2024, month := 7, day := 31 }).2.1 (toFinRow dJul1 sampleFin1)
      (by simp [dbBoundary])⟩

/-- C4.  The two alert rules run independently and accumulate in a fixed
order: a positive loss count puts the severity-high loss alert — carrying the
count and the absolute summed loss — at the head of the list; a positive
low-efficiency count puts the severity-medium alert, carrying its count, in
the list regardless of the loss rule; when both fire the list is exactly
loss-then-efficiency; and no alert other than these two ever appears. -/
theorem alert_rules_order_and_content (db : DB) (today : Date)
    (sd ed : Option Date) :
    ((lossAlertOf (rowsInReport db today sd ed)).severity = "high"
      ∧ (lossAlertOf (rowsInReport db today sd ed)).msg_count =
          (lossRows (rowsInReport db today sd ed)).length
      ∧ (lossAlertOf (rowsInReport db today sd ed)).msg_amount =
          some |((lossRows (rowsInReport db today sd ed)).map FinRow.profit).sum|
      ∧ (effAlertOf (rowsInReport db today sd ed)).severity = "medium"
      ∧ (effAlertOf (rowsInReport db today sd ed)).msg_count =
          (lowEffRows (rowsInReport db today sd ed)).length)
    ∧ (0 < (lossRows (rowsInReport db today sd ed)).length →
        (generate_automated_report db today sd ed).alerts.head? =
          some (lossAlertOf (rowsInReport db today sd ed)))
    ∧ (0 < (lowEffRows (rowsInReport db today sd ed)).length →
        effAlertOf (rowsInReport db today sd ed) ∈
          (generate_automated_report db today sd ed).alerts)
    ∧ (0 < (lossRows (rowsInReport db today sd ed)).length →
        0 < (lowEffRows (rowsInReport db today sd ed)).length →
        (generate_automated_report db today sd ed).alerts =
          [lossAlertOf (rowsInReport db today sd ed),
            effAlertOf (rowsInReport db today sd ed)])
    ∧ (∀ a ∈ (generate_automated_report db today sd ed).alerts,
        a = lossAlertOf (rowsInReport db today sd ed)
          ∨ a = effAlertOf (rowsInReport db today sd ed)) := by
  have halerts : (generate_automated_report db today sd ed).alerts
      = mkAlerts (rowsInReport db today sd ed) := rfl
  by_cases h1 : 0 < (lossRows (rowsInReport db today sd ed)).length <;>
    by_cases h2 : 0 < (lowEffRows (rowsInReport db today sd ed)).length <;>
      simp [halerts, mkAlerts, lossAlertOf, effAlertOf, h1, h2]

/-- Witness for C4 on the specification fixture: exactly two alerts, counts
3 and 2, loss first with absolute total loss 500. -/
theorem alert_rules_order_and_content_witness :
    0 < (lossRows (rowsInReport dbAlerts dJul1 (some dJul1) (some dJul1))).length
    ∧ 0 < (lowEffRows (rowsInReport dbAlerts dJul1 (some dJul1) (some dJul1))).length
    ∧ (generate_automated_report dbAlerts dJul1 (some dJul1) (some dJul1)).alerts =
        [{ alert_type := "loss_making_projects", severity := "high", msg_count := 3,
           msg_amount := some 500 },
         { alert_type := "low_efficiency", severity := "medium", msg_count := 2,
           msg_amount := none }] := by
  refine ⟨by decide, by decide, ?_⟩
  rw [(alert_rules_order_and_content dbAlerts dJul1 (some dJul1) (some dJul1)).2.2.2.1
    (by decide) (by decide)]
  norm_num [lossAlertOf, effAlertOf, lossRows, lowEffRows, rowsInReport, finInRange,
    inRange, Date.le, dJul1, dbAlerts, finAt, List.filter]

/-- C7.  If any of the six read queries raises, the whole
`generate_automated_report` call fails with that single error and no report
value is produced; conversely any returned report is the complete report —
there is no partially-filled result. -/
theorem report_fails_atomically_on_query_failure (db : DB) (today : Date)
    (sd ed : Option Date) (fails : QueryId → Bool) :
    ((∃ q, fails q = true) →
      ∃ q, generateReportExc db today sd ed fails = Except.error q)
    ∧ (∀ rep, generateReportExc db today sd ed fails = Except.ok rep →
        rep = generate_automated_report db today sd ed) := by
  constructor
  · intro hex
    by_cases h1 : fails QueryId.summaryQ
    · exact ⟨QueryId.summaryQ, by simp [generateReportExc, runQuery, h1]⟩
    by_cases h2 : fails QueryId.typeQ
    · exact ⟨QueryId.typeQ, by simp [generateReportExc, runQuery, h1, h2]⟩
    by_cases h3 : fails QueryId.statusQ
    · exact ⟨QueryId.statusQ, by simp [generateReportExc, runQuery, h1, h2, h3]⟩
    by_cases h4 : fails QueryId.deptQ
    · exact ⟨QueryId.deptQ, by simp [generateReportExc, runQuery, h1, h2, h3, h4]⟩
    by_cases h5 : fails QueryId.lossQ
    · exact ⟨QueryId.lossQ, by simp [generateReportExc, runQuery, h1, h2, h3, h4, h5]⟩
    by_cases h6 : fails QueryId.effQ
    · exact ⟨QueryId.effQ, by simp [generateReportExc, runQuery, h1, h2, h3, h4, h5, h6]⟩
    · obtain ⟨q, hq⟩ := hex
      cases q <;> simp_all
  · intro rep h
    by_cases h1 : fails QueryId.summaryQ <;>
      by_cases h2 : fails QueryId.typeQ <;>
      by_cases h3 : fails QueryId.statusQ <;>
      by_cases h4 : fails QueryId.deptQ <;>
      by_cases h5 : fails QueryId.lossQ <;>
      by_cases h6 : fails QueryId.effQ <;>
      simp only [generateReportExc, runQuery, h1, h2, h3, h4, h5, h6,
        if_true, if_false] at h <;>
      cases h <;> exact rfl

/-- Witness for C7: with the status query failing, the whole call returns an
error and no report. -/
theorem report_fails_atomically_on_query_failure_witness :
    (∃ q, failsStatusOnly q = true)
    ∧ ∃ q, generateReportExc dbAlerts dJul1 (some dJul1) (some dJul1) failsStatusOnly
        = Except.error q :=
  ⟨⟨QueryId.statusQ, rfl⟩,
    (report_fails_atomically_on_query_failure dbAlerts dJul1 (some dJul1) (some dJul1)
      failsStatusOnly).1 ⟨QueryId.statusQ, rfl⟩⟩

/-- `gsStatusRows` ignores appended rows that the status query rejects. -/
theorem gsStatusRows_append (l1 l2 : List FinRow) :
    gsStatusRows (l1 ++ l2) = gsStatusRows l1 ++ gsStatusRows l2 := by
  simp [gsStatusRows, List.filter_append]

/-- The status breakdown depends only on the admitted rows. -/
theorem mkStatusBreakdown_eq_of_gs (l1 l2 : List FinRow)
    (h : gsStatusRows l1 = gsStatusRows l2) :
    mkStatusBreakdown l1 = mkStatusBreakdown l2 := by
  simp [mkStatusBreakdown, statusEntry, h]

/-- C10.  An input row without a `Status` field is stored with the literal
status `Unknown` (the `row.get('Status', 'Unknown')` default on line 146 —
never a null or missing status), and the stored row consequently contributes
to no status-breakdown entry of any later report over any range. -/
theorem missing_status_stored_unknown (r : FinInputRow) (hr : r.Status = none)
    (rdate : Date) :
    (toFinRow rdate r).status = "Unknown"
    ∧ ∀ (db : DB) (today : Date) (sd ed : Option Date),
        (generate_automated_report
            { financial := db.financial ++ [toFinRow rdate r]
              department := db.department } today sd ed).project_status =
          (generate_automated_report db today sd ed).project_status := by
  have hst : (toFinRow rdate r).status = "Unknown" := by simp [toFinRow, hr]
  refine ⟨hst, ?_⟩
  intro db today sd ed
  have key : ∀ dbx : DB, (generate_automated_report dbx today sd ed).project_status
      = mkStatusBreakdown (rowsInReport dbx today sd ed) := fun _ => rfl
  rw [key, key]
  apply mkStatusBreakdown_eq_of_gs
  by_cases hc :
      inRange (sd.getD (firstOfMonth today)) (ed.getD today) (toFinRow rdate r).report_date <;>
    simp [rowsInReport, finInRange, gsStatusRows, List.filter_append,
      List.filter_cons, hst, hc]

/-- Witness for C10: a concrete row with no `Status` field is stored as
`Unknown` and leaves the status breakdown of a later report untouched. -/
theorem missing_status_stored_unknown_witness :
    (toFinRow dJul1 noStatusRow).status = "Unknown"
    ∧ (generate_automated_report
          { financial := dbAlerts.financial ++ [toFinRow dJul1 noStatusRow]
            department := dbAlerts.department } dJul1 (some dJul1)
          (some dJul1)).project_status =
        (generate_automated_report dbAlerts dJul1 (some dJul1) (some dJul1)).project_status :=
  ⟨(missing_status_stored_unknown noStatusRow rfl dJul1).1,
    (missing_status_stored_unknown noStatusRow rfl dJul1).2 dbAlerts dJul1
      (some dJul1) (some dJul1)⟩

/-- Dropping every row the status query rejects changes no status-query
input. -/
theorem gsStatusRows_gsOnly (db : DB) (d1 d2 : Date) :
    gsStatusRows (finInRange (gsOnlyDB db) d1 d2) = gsStatusRows (finInRange db d1 d2) := by
  simp only [gsStatusRows, finInRange, gsOnlyDB, List.filter_filter]
  apply List.filter_congr
  intro r _
  cases hq : (r.project_type == "GS" && r.status != "Unknown") <;>
    cases hp : inRange d1 d2 r.report_date <;> simp [hq, hp]

/-- C5.  Every status-breakdown entry comes from `GS` rows with a known
status — its status differs from `Unknown`, some in-range `GS` row carries
it, and its count counts exactly the admitted rows of that status — and the
breakdown is unchanged when every `ISS` row and every `Unknown`-status `GS`
row is deleted from the store: such rows contribute to no entry. -/
theorem status_breakdown_only_gs_known (db : DB) (today : Date)
    (sd ed : Option Date) :
    (∀ en ∈ (generate_automated_report db today sd ed).project_status,
        en.status ≠ "Unknown"
        ∧ (∃ r ∈ rowsInReport db today sd ed,
            r.project_type = "GS" ∧ r.status = en.status)
        ∧ en.count = ((gsStatusRows (rowsInReport db today sd ed)).filter
            (fun r => r.status == en.status)).length)
    ∧ (generate_automated_report db today sd ed).project_status =
        (generate_automated_report (gsOnlyDB db) today sd ed).project_status := by
  constructor
  · intro en hen
    have hmk : (generate_automated_report db today sd ed).project_status
        = mkStatusBreakdown (rowsInReport db today sd ed) := rfl
    rw [hmk, mkStatusBreakdown] at hen
    obtain ⟨st, hst, hen2⟩ := List.mem_map.mp hen
    rw [List.mem_dedup, List.mem_map] at hst
    obtain ⟨r, hrG, hrst⟩ := hst
    obtain ⟨hrR, hpred⟩ := List.mem_filter.mp hrG
    simp only [Bool.and_eq_true, beq_iff_eq, bne_iff_ne, ne_eq] at hpred
    subst hen2
    refine ⟨?_, ⟨r, hrR, hpred.1, ?_⟩, rfl⟩
    · show st ≠ "Unknown"
      rw [← hrst]
      exact hpred.2
    · show r.status = st
      exact hrst
  · exact mkStatusBreakdown_eq_of_gs (rowsInReport db today sd ed)
      (rowsInReport (gsOnlyDB db) today sd ed)
      (gsStatusRows_gsOnly db (sd.getD (firstOfMonth today)) (ed.getD today)).symm

/-- Witness for C5 on the specification fixture: the breakdown is exactly one
`Success` entry, its status is not `Unknown`, and its count is 3. -/
theorem status_breakdown_only_gs_known_witness :
    (generate_automated_report dbStatus dJul1 (some dJul1) (some dJul1)).project_status
      = [statusEntry (rowsInReport dbStatus dJul1 (some dJul1) (some dJul1)) "Success"]
    ∧ (statusEntry (rowsInReport dbStatus dJul1 (some dJul1) (some dJul1))
        "Success").status ≠ "Unknown"
    ∧ (statusEntry (rowsInReport dbStatus dJul1 (some dJul1) (some dJul1))
        "Success").count = 3 := by
  have hmem : statusEntry (rowsInReport dbStatus dJul1 (some dJul1) (some dJul1)) "Success"
      ∈ (generate_automated_report dbStatus dJul1 (some dJul1) (some dJul1)).project_status :=
    List.mem_singleton.mpr rfl
  obtain ⟨h1, _, h3⟩ :=
    (status_breakdown_only_gs_known dbStatus dJul1 (some dJul1) (some dJul1)).1 _ hmem
  refine ⟨rfl, h1, ?_⟩
  rw [h3]
  rfl

/-- The department names of the aggregate entries are exactly the distinct
stored names, with no repetition. -/
theorem deptAggs_names (rows : List DeptRow) :
    (deptAggs rows).map DeptEntry.department = (rows.map (·.department_name)).dedup := by
  simp [deptAggs, List.map_map]
  exact List.map_id _

/-- C8.  The top-departments section holds at most 10 entries, ordered by
summed `total_hours` descending, pairwise-distinct departments; each entry is
the `GROUP BY` aggregate (summed hours, summed labor cost, mean
`num_projects`) of a department actually present in range; and a stored
department absent from the section is outranked: the section is full at 10
entries, each with at least its summed hours. -/
theorem top_departments_spec (db : DB) (today : Date) (sd ed : Option Date) :
    (generate_automated_report db today sd ed).top_departments.length ≤ 10
    ∧ (generate_automated_report db today sd ed).top_departments.Pairwise
        (fun a b => b.total_hours ≤ a.total_hours)
    ∧ (generate_automated_report db today sd ed).top_departments.Pairwise
        (fun a b => a.department ≠ b.department)
    ∧ (∀ en ∈ (generate_automated_report db today sd ed).top_departments,
        en = deptEntry (deptRowsInReport db today sd ed) en.department
        ∧ ∃ r ∈ deptRowsInReport db today sd ed, r.department_name = en.department)
    ∧ (∀ name : String,
        (∃ r ∈ deptRowsInReport db today sd ed, r.department_name = name) →
        (∀ en ∈ (generate_automated_report db today sd ed).top_departments,
          en.department ≠ name) →
        (generate_automated_report db today sd ed).top_departments.length = 10
          ∧ ∀ en ∈ (generate_automated_report db today sd ed).top_departments,
              (deptEntry (deptRowsInReport db today sd ed) name).total_hours
                ≤ en.total_hours) := by
  have htd : (generate_automated_report db today sd ed).top_departments
      = (List.insertionSort deptGe (deptAggs (deptRowsInReport db today sd ed))).take 10 :=
    rfl
  have hsorted : (List.insertionSort deptGe
      (deptAggs (deptRowsInReport db today sd ed))).Pairwise deptGe :=
    List.sorted_insertionSort deptGe (deptAggs (deptRowsInReport db today sd ed))
  have hperm : List.Perm
      (List.insertionSort deptGe (deptAggs (deptRowsInReport db today sd ed)))
      (deptAggs (deptRowsInReport db today sd ed)) :=
    List.perm_insertionSort deptGe (deptAggs (deptRowsInReport db today sd ed))
  refine ⟨?_, ?_, ?_, ?_, ?_⟩
  · rw [htd]; exact List.length_take_le 10 _
  · rw [htd]
    exact (hsorted.sublist (List.take_sublist 10 _)).imp (fun h => h)
  · rw [htd]
    have hnodup : ((List.insertionSort deptGe
        (deptAggs (deptRowsInReport db today sd ed))).map DeptEntry.department).Nodup := by
      rw [(hperm.map DeptEntry.department).nodup_iff, deptAggs_names]
      exact List.nodup_dedup _
    have := hnodup.sublist ((List.take_sublist 10 _).map DeptEntry.department)
    exact List.pairwise_map.mp this
  · rw [htd]
    intro en hen
    have hen2 : en ∈ deptAggs (deptRowsInReport db today sd ed) :=
      hperm.mem_iff.mp (List.take_subset 10 _ hen)
    obtain ⟨k, hk, hk2⟩ := List.mem_map.mp hen2
    obtain ⟨r, hr, hr2⟩ := List.mem_map.mp (List.mem_dedup.mp hk)
    constructor
    · rw [← hk2]; rfl
    · refine ⟨r, hr, ?_⟩
      rw [← hk2]
      exact hr2
  · rw [htd]
    intro name hname hnotin
    have hkey : name ∈ ((deptRowsInReport db today sd ed).map (·.department_name)).dedup := by
      rw [List.mem_dedup, List.mem_map]
      obtain ⟨r, hr, hr2⟩ := hname
      exact ⟨r, hr, hr2⟩
    have hagg : deptEntry (deptRowsInReport db today sd ed) name
        ∈ List.insertionSort deptGe (deptAggs (deptRowsInReport db today sd ed)) :=
      hperm.mem_iff.mpr (List.mem_map.mpr ⟨name, hkey, rfl⟩)
    have hnottake : deptEntry (deptRowsInReport db today sd ed) name
        ∉ (List.insertionSort deptGe (deptAggs (deptRowsInReport db today sd ed))).take 10 := by
      intro hmem
      exact hnotin _ hmem rfl
    have hdrop : deptEntry (deptRowsInReport db today sd ed) name
        ∈ (List.insertionSort deptGe (deptAggs (deptRowsInReport db today sd ed))).drop 10 := by
      have := (List.take_append_drop 10
        (List.insertionSort deptGe (deptAggs (deptRowsInReport db today sd ed)))).symm
      rw [this] at hagg
      rcases List.mem_append.mp hagg with h | h
      · exact absurd h hnottake
      · exact h
    have hsplit := hsorted
    rw [← List.take_append_drop 10
      (List.insertionSort deptGe (deptAggs (deptRowsInReport db today sd ed))),
      List.pairwise_append] at hsplit
    constructor
    · have hlen : 10 < (List.insertionSort deptGe
          (deptAggs (deptRowsInReport db today sd ed))).length := by
        by_contra hcon
        push_neg at hcon
        have : (List.insertionSort deptGe
            (deptAggs (deptRowsInReport db today sd ed))).drop 10 = [] :=
          List.drop_eq_nil_of_le hcon
        rw [this] at hdrop
        exact absurd hdrop (List.not_mem_nil _)
      rw [List.length_take]
      omega
    · intro en hen
      exact hsplit.2.2 en hen _ hdrop

/-- Witness for C8: with eleven stored departments the section holds exactly
ten entries and the eleventh-ranked department `D11` (10 hours) is outranked
by every listed entry. -/
theorem top_departments_spec_witness :
    (∃ r ∈ deptRowsInReport dbTop dJul1 (some dJul1) (some dJul1),
        r.department_name = "D11")
    ∧ (generate_automated_report dbTop dJul1 (some dJul1)
        (some dJul1)).top_departments.length = 10
    ∧ (deptEntry (deptRowsInReport dbTop dJul1 (some dJul1) (some dJul1))
        "D11").total_hours ≤ (20 : ℚ) := by
  have hname : ∃ r ∈ deptRowsInReport dbTop dJul1 (some dJul1) (some dJul1),
      r.department_name = "D11" :=
    ⟨deptAt "D11" 10, by decide, rfl⟩
  have hE01 : deptEntry dbTop.department "D01" = mkDE "D01" 110 := by
    simp [deptEntry, sqlAvg, dbTop, deptAt, mkDE, List.filter_cons, List.filter_nil]
  have hE02 : deptEntry dbTop.department "D02" = mkDE "D02" 100 := by
    simp [deptEntry, sqlAvg, dbTop, deptAt, mkDE, List.filter_cons, List.filter_nil]
  have hE03 : deptEntry dbTop.department "D03" = mkDE "D03" 90 := by
    simp [deptEntry, sqlAvg, dbTop, deptAt, mkDE, List.filter_cons, List.filter_nil]
  have hE04 : deptEntry dbTop.department "D04" = mkDE "D04" 80 := by
    simp [deptEntry, sqlAvg, dbTop, deptAt, mkDE, List.filter_cons, List.filter_nil]
  have hE05 : deptEntry dbTop.department "D05" = mkDE "D05" 70 := by
    simp [deptEntry, sqlAvg, dbTop, deptAt, mkDE, List.filter_cons, List.filter_nil]
  have hE06 : deptEntry dbTop.department "D06" = mkDE "D06" 60 := by
    simp [deptEntry, sqlAvg, dbTop, deptAt, mkDE, List.filter_cons, List.filter_nil]
  have hE07 : deptEntry dbTop.department "D07" = mkDE "D07" 50 := by
    simp [deptEntry, sqlAvg, dbTop, deptAt, mkDE, List.filter_cons, List.filter_nil]
  have hE08 : deptEntry dbTop.department "D08" = mkDE "D08" 40 := by
    simp [deptEntry, sqlAvg, dbTop, deptAt, mkDE, List.filter_cons, List.filter_nil]
  have hE09 : deptEntry dbTop.department "D09" = mkDE "D09" 30 := by
    simp [deptEntry, sqlAvg, dbTop, deptAt, mkDE, List.filter_cons, List.filter_nil]
  have hE10 : deptEntry dbTop.department "D10" = mkDE "D10" 20 := by
    simp [deptEntry, sqlAvg, dbTop, deptAt, mkDE, List.filter_cons, List.filter_nil]
  have hE11 : deptEntry dbTop.department "D11" = mkDE "D11" 10 := by
    simp [deptEntry, sqlAvg, dbTop, deptAt, mkDE, List.filter_cons, List.filter_nil]
  have h0 : (generate_automated_report dbTop dJul1 (some dJul1)
      (some dJul1)).top_departments =
      (List.insertionSort deptGe
        [ deptEntry dbTop.department "D01", deptEntry dbTop.department "D02",
          deptEntry dbTop.department "D03", deptEntry dbTop.department "D04",
          deptEntry dbTop.department "D05", deptEntry dbTop.department "D06",
          deptEntry dbTop.department "D07", deptEntry dbTop.department "D08",
          deptEntry dbTop.department "D09", deptEntry dbTop.department "D10",
          deptEntry dbTop.department "D11" ]).take 10 := rfl
  have hTD : (generate_automated_report dbTop dJul1 (some dJul1)
      (some dJul1)).top_departments =
      [ mkDE "D01" 110, mkDE "D02" 100, mkDE "D03" 90, mkDE "D04" 80,
        mkDE "D05" 70, mkDE "D06" 60, mkDE "D07" 50, mkDE "D08" 40,
        mkDE "D09" 30, mkDE "D10" 20 ] := by
    rw [h0, hE01, hE02, hE03, hE04, hE05, hE06, hE07, hE08, hE09, hE10, hE11]
    norm_num [List.insertionSort, List.orderedInsert, deptGe, mkDE]
  have hnotin : ∀ en ∈ (generate_automated_report dbTop dJul1 (some dJul1)
      (some dJul1)).top_departments, en.department ≠ "D11" := by
    rw [hTD]; decide
  obtain ⟨hlen, hle⟩ := (top_departments_spec dbTop dJul1 (some dJul1)
    (some dJul1)).2.2.2.2 "D11" hname hnotin
  refine ⟨hname, hlen, ?_⟩
  have h10 := hle (mkDE "D10" 20) (by rw [hTD]; decide)
  exact h10

end WTL
